import Mathlib

/-!
Verification of the ORBITA backend satellite-tracking core
(src/backend/server.py) against its specification.

Embedding conventions:
* The skyfield propagation-and-subpoint call (an external library the
  handlers invoke via sat.at(t) and wgs84.subpoint) is a function
  parameter of type Propagator, because the repository only consumes it.
* Instants are rationals counting hours relative to an arbitrary epoch;
  the handlers only ever add timedelta(hours=q) offsets, so rational hour
  arithmetic captures them exactly.
* Python float values that the handlers merely carry through are
  modelled as rationals.
* Raised exceptions are Except errors; each per-endpoint
  except-Exception wrapper is an explicit error-mapping step.
* The identifier str(hash(sat.name)) is an abstract parameter
  hashStr : String → String, since no claim depends on the hash values.
-/

namespace Orbita

/-- A parsed two-line-element satellite record as the server holds it:
display name plus catalog number (server.py keeps the full skyfield
EarthSatellite object; only these two fields are read by the handlers). -/
structure Sat where
  name : String
  satnum : Nat
deriving DecidableEq

/-- The geodetic subpoint the skyfield library returns for one
propagation: latitude and longitude in degrees and altitude in km.
The velocity-derived speed is a further pure function of the same
library output; no claim constrains its value, so it is omitted. -/
structure Geo where
  lat : ℚ
  lon : ℚ
  altKm : ℚ
deriving DecidableEq

/-- Failure kinds the propagation library can raise (decayed orbit,
malformed element set, or any other exception). -/
inductive PropErr where
  | malformedElements
  | orbitDecayed
  | other
deriving DecidableEq

/-- The external propagation-plus-subpoint step: satellite and instant
to geodetic subpoint, or a raised error. -/
abbrev Propagator := Sat → ℚ → Except PropErr Geo

/-- Substring test, mirroring the Python expression `"ISS" in sat.name`. -/
def containsStr (s sub : String) : Bool := 2 ≤ (s.splitOn sub).length

/-- Satellite type classification of list_satellites (server.py line 145). -/
def satType (name : String) : String :=
  if containsStr name "ISS" then "Space Station"
  else if containsStr name "LANDSAT" || containsStr name "SENTINEL" ||
      containsStr name "MODIS" then "Earth Observation"
  else "Communication"

/-- Rounding to two decimals, mirroring Python round(x, 2) (Python uses
banker rounding at exact midpoints; the difference never matters to any
claim, which only inspect the failure branch). -/
def round2 (q : ℚ) : ℚ := (round (100 * q) : ℤ) / 100

/-- Africa-coverage test used throughout server.py:
-35 <= lat <= 37 and -20 <= lon <= 55. -/
def africaCoverage (lat lon : ℚ) : Bool :=
  decide (-35 ≤ lat ∧ lat ≤ 37 ∧ -20 ≤ lon ∧ lon ≤ 55)

/-- One entry of the list_satellites response (server.py lines 141-160). -/
structure ListEntry where
  id : String
  name : String
  satnum : Nat
  type : String
  current_altitude : ℚ
  status : String
  coverage : String
deriving DecidableEq

/-- Embedding of list_satellites (server.py lines 127-162): the first 20
satellites are mapped to entries; a satellite whose propagation raises is
replaced by a fallback entry with altitude 0 and status Unknown (the
per-satellite except branch, lines 150-160).  The endpoint wraps this
list with a total count; on an empty catalog it returns an empty list
with a message, which no claim touches. -/
def listSatellites (hashStr : String → String) (prop : Propagator)
    (now : ℚ) (sats : List Sat) : List ListEntry :=
  (sats.take 20).map fun sat =>
    match prop sat now with
    | .ok g =>
      { id := hashStr sat.name, name := sat.name, satnum := sat.satnum,
        type := satType sat.name, current_altitude := round2 g.altKm,
        status := "Active",
        coverage := if decide (400 < g.altKm) then "Global" else "Regional" }
    | .error _ =>
      { id := hashStr sat.name, name := sat.name, satnum := sat.satnum,
        type := "Satellite", current_altitude := 0,
        status := "Unknown", coverage := "Unknown" }

/-- One entry of the real-time tracking response (server.py lines 772-780). -/
structure TrackEntry where
  id : String
  name : String
  lat : ℚ
  lon : ℚ
  altKm : ℚ
  status : String
  africa : Bool
deriving DecidableEq

/-- Embedding of get_real_time_tracking (server.py lines 756-791): the
first 15 satellites are propagated at the shared instant; a satellite
whose propagation raises is silently skipped (the bare except-continue,
lines 781-782). -/
def realTimeTracking (hashStr : String → String) (prop : Propagator)
    (now : ℚ) (sats : List Sat) : List TrackEntry :=
  (sats.take 15).filterMap fun sat =>
    match prop sat now with
    | .ok g =>
      some { id := hashStr sat.name, name := sat.name, lat := g.lat,
             lon := g.lon, altKm := g.altKm, status := "Active",
             africa := africaCoverage g.lat g.lon }
    | .error _ => none

/-- Exceptions visible to the HTTP layer: an HTTPException with status
and detail, or a propagation exception escaping the library call. -/
inductive HExc where
  | http (status : Nat) (detail : String)
  | propagation (e : PropErr)
deriving DecidableEq

/-- Rendering of a caught exception by str(e) inside the detail string of
the re-raised 500 (the exact text is starlette formatting and immaterial
to every claim, which match the status only). -/
def excMessage : HExc → String
  | .http s d => toString s ++ ": " ++ d
  | .propagation _ => "propagation error"

/-- Lookup of a satellite by str(hash(name)) identifier, the loop at
server.py lines 172-176 and 419-423. -/
def findByHash (hashStr : String → String) (sats : List Sat)
    (satId : String) : Option Sat :=
  sats.find? fun s => hashStr s.name == satId

/-- ASCII lowercase of one character, the per-character behavior of the
Python str.lower call on the satellite names involved (all ASCII). -/
def lowerChar (c : Char) : Char :=
  if 65 ≤ c.toNat ∧ c.toNat ≤ 90 then Char.ofNat (c.toNat + 32) else c

/-- ASCII lowercase of a string, embedding Python str.lower. -/
def lowerStr (s : String) : String := ⟨s.data.map lowerChar⟩

/-- Lookup of a satellite by case-insensitive name, the loop at
server.py lines 467-471. -/
def findByName (sats : List Sat) (nm : String) : Option Sat :=
  sats.find? fun s => lowerStr s.name == lowerStr nm

/-- Response of the position endpoint (server.py lines 212-223); the
orbital-period and inclination extras read only satellite constants and
are omitted as no claim touches them. -/
structure PosResp where
  id : String
  name : String
  lat : ℚ
  lon : ℚ
  altKm : ℚ
  coverageArea : String
deriving DecidableEq

/-- Body of the try block of get_satellite_position (server.py lines
170-223): lookup by hash raising 404 when absent, then one propagation. -/
def positionBody (hashStr : String → String) (prop : Propagator)
    (sats : List Sat) (satId : String) (now : ℚ) : Except HExc PosResp :=
  match findByHash hashStr sats satId with
  | none => .error (.http 404 "Satellite not found")
  | some sat =>
    match prop sat now with
    | .error e => .error (.propagation e)
    | .ok g =>
      .ok { id := satId, name := sat.name, lat := g.lat, lon := g.lon,
            altKm := g.altKm,
            coverageArea :=
              if africaCoverage g.lat g.lon then "Africa" else "Global" }

/-- Embedding of get_satellite_position (server.py lines 164-225): the
pre-try 503 guard on an unloaded catalog, then the try body whose every
exception — the 404 included — is caught and re-raised as a 500 with
detail prefixed by the handler (lines 224-225). -/
def positionEndpoint (hashStr : String → String) (prop : Propagator)
    (sats : List Sat) (satId : String) (now : ℚ) : Except HExc PosResp :=
  if sats.isEmpty then .error (.http 503 "Satellite data not available")
  else
    match positionBody hashStr prop sats satId now with
    | .ok r => .ok r
    | .error e =>
      .error (.http 500 ("Error calculating position: " ++ excMessage e))

/-- The 51 sampling instants of get_orbital_prediction (server.py lines
428-436): t0 + i * (prediction_hours / 50) hours for i = 0 .. 50. -/
def predictionTimes (t0 h : ℚ) : List ℚ :=
  (List.range 51).map fun (i : ℕ) => t0 + (i : ℚ) * (h / 50)

/-- One orbital-path point (server.py lines 440-446). -/
structure PathPoint where
  time : ℚ
  lat : ℚ
  lon : ℚ
  altKm : ℚ
  africa : Bool
deriving DecidableEq

/-- Construction of one orbital-path point from instant and subpoint. -/
def pathPoint (t : ℚ) (g : Geo) : PathPoint :=
  { time := t, lat := g.lat, lon := g.lon, altKm := g.altKm,
    africa := africaCoverage g.lat g.lon }

/-- The sampling loop of get_orbital_prediction (server.py lines
435-446): each instant is propagated in order inside the try block, so
the first raised propagation error discards the whole response — the
locally accumulated points are never returned. -/
def samplePath (prop : ℚ → Except PropErr Geo) :
    List ℚ → Except PropErr (List PathPoint)
  | [] => .ok []
  | t :: rest =>
    match prop t with
    | .error e => .error e
    | .ok g =>
      match samplePath prop rest with
      | .error e => .error e
      | .ok tail => .ok (pathPoint t g :: tail)

/-- Response of the orbital-prediction endpoint (server.py lines 448-454). -/
structure PredResp where
  satelliteId : String
  predictionHours : ℚ
  path : List PathPoint
  totalPoints : Nat
  africaPct : ℚ
deriving DecidableEq

/-- Body of the try block of get_orbital_prediction (server.py lines
417-454): lookup by hash raising 404 when absent, then the sampling loop. -/
def predictionBody (hashStr : String → String) (prop : Propagator)
    (sats : List Sat) (satId : String) (h t0 : ℚ) : Except HExc PredResp :=
  match findByHash hashStr sats satId with
  | none => .error (.http 404 "Satellite not found")
  | some sat =>
    match samplePath (fun t => prop sat t) (predictionTimes t0 h) with
    | .error e => .error (.propagation e)
    | .ok pts =>
      .ok { satelliteId := satId, predictionHours := h, path := pts,
            totalPoints := pts.length,
            africaPct :=
              (pts.countP (fun p => p.africa) : ℚ) / (pts.length : ℚ) * 100 }

/-- Embedding of get_orbital_prediction (server.py lines 411-457): the
pre-try 503 guard, then the try body whose every exception — the 404
included — is caught and re-raised as a 500 (lines 456-457). -/
def predictionEndpoint (hashStr : String → String) (prop : Propagator)
    (sats : List Sat) (satId : String) (h t0 : ℚ) : Except HExc PredResp :=
  if sats.isEmpty then .error (.http 503 "Satellite data not available")
  else
    match predictionBody hashStr prop sats satId h t0 with
    | .ok r => .ok r
    | .error e =>
      .error (.http 500
        ("Error calculating orbital prediction: " ++ excMessage e))

/-- One mock pass entry (server.py lines 484-491). -/
structure PassEntry where
  time : ℚ
  altitude : Nat
  azimuth : Nat
  distance : Nat
  duration : Nat
  maxElevation : Nat
deriving DecidableEq

/-- The i-th mock pass of get_satellite_passes (server.py lines 483-491):
emitted 6*i hours after the request instant with the fixed formulas of
the source. -/
def mkPass (t0 : ℚ) (i : Nat) : PassEntry :=
  { time := t0 + 6 * (i : ℚ), altitude := 45 + (i % 3) * 15,
    azimuth := (i * 60) % 360, distance := 400 + (i % 10) * 50,
    duration := 8 + (i % 3) * 2, maxElevation := 60 + (i % 2) * 15 }

/-- The mock pass list of get_satellite_passes (server.py lines 478-491):
range(days * 4) passes — empty for non-positive days, matching Python
range semantics on a negative argument. -/
def mkPasses (days : Int) (t0 : ℚ) : List PassEntry :=
  (List.range (days * 4).toNat).map (mkPass t0)

/-- Response of the passes endpoint (server.py line 493). -/
structure PassesResp where
  passes : List PassEntry
  totalPasses : Nat
deriving DecidableEq

/-- Body of the try block of get_satellite_passes (server.py lines
465-493): lookup by lowercased name raising 404 when absent, then the
mock pass list.  The observer latitude and longitude of the request are
accepted and never read; no propagation happens per pass sample. -/
def passesBody (sats : List Sat) (nm : String) (lat lon : ℚ)
    (days : Int) (t0 : ℚ) : Except HExc PassesResp :=
  match findByName sats nm with
  | none => .error (.http 404 "Satellite not found")
  | some _ =>
    .ok { passes := mkPasses days t0, totalPasses := (mkPasses days t0).length }

/-- Embedding of get_satellite_passes (server.py lines 459-495): the
pre-try 503 guard, then the try body whose every exception — the 404
included — is caught and re-raised as a 500 (lines 494-495). -/
def passesEndpoint (sats : List Sat) (nm : String) (lat lon : ℚ)
    (days : Int) (t0 : ℚ) : Except HExc PassesResp :=
  if sats.isEmpty then .error (.http 503 "Satellite data not available")
  else
    match passesBody sats nm lat lon days t0 with
    | .ok r => .ok r
    | .error e =>
      .error (.http 500 ("Error calculating passes: " ++ excMessage e))

/-- The process-wide state the handlers can reach: the loaded catalog
(the module-level satellites global of server.py).  The timescale ts is
a constant table and carries no mutable content relevant to any claim. -/
structure World where
  sats : List Sat
deriving DecidableEq

/-- One invocation of the position endpoint against the process state,
returning the response together with the state after the call: the
handler only reads the catalog, so the state passes through unchanged. -/
def positionCall (hashStr : String → String) (prop : Propagator)
    (w : World) (satId : String) (now : ℚ) :
    Except HExc PosResp × World :=
  (positionEndpoint hashStr prop w.sats satId now, w)

/-- An Earth-centered inertial position at one instant, kilometers per
component (the velocity components play no role in the geodetic claims
and are omitted). -/
structure StateVector where
  x : ℝ
  y : ℝ
  z : ℝ

/-- A geodetic position over the reals as the spec states it: latitude
and longitude in degrees and altitude in kilometers. -/
structure GeoR where
  latDeg : ℝ
  lonDeg : ℝ
  altKm : ℝ

/-- Normalization of an angle in degrees into a half-open turn around
zero, the wraparound step of the longitude computation. -/
noncomputable def wrapDeg (d : ℝ) : ℝ := d - 360 * (round (d / 360) : ℤ)

/-- Modelled from the spec: the toGeodetic operation of the Orbit Model
(spec section 4.1).  The implementation the handlers call is
wgs84.subpoint of the external skyfield library and is not under src/,
so the transform is modelled from the spec text: rotate the inertial
vector into the Earth-fixed frame through the Earth rotation angle for
the instant (given here in degrees as gmstDeg), solve the latitude by an
arctangent projection, and wrap the longitude into one turn.  A as the
WGS-84 semi-major axis fixes the altitude origin. -/
noncomputable def toGeodetic (gmstDeg : ℝ) (v : StateVector) : GeoR :=
  let p := Real.sqrt (v.x ^ 2 + v.y ^ 2)
  let raDeg := Complex.arg ⟨v.x, v.y⟩ * (180 / Real.pi)
  { latDeg := Real.arctan (v.z / p) * (180 / Real.pi),
    lonDeg := wrapDeg (raDeg - gmstDeg),
    altKm := Real.sqrt (v.x ^ 2 + v.y ^ 2 + v.z ^ 2) - 6378.137 }

/-- A concrete satellite record used by concrete-input theorems. -/
def issSat : Sat := { name := "ISS (ZARYA)", satnum := 25544 }

/-- A concrete propagation result used by concrete-input theorems. -/
def geo0 : Geo := { lat := 10, lon := 20, altKm := 420 }

/-! Helper lemmas shared by several claim theorems. -/

/-- Propagation succeeding on every instant of a list makes the sampling
loop succeed, with the sampled instants passed through in order. -/
theorem samplePath_ok (prop : ℚ → Except PropErr Geo) (l : List ℚ)
    (h : ∀ t ∈ l, ∃ g, prop t = Except.ok g) :
    ∃ pts, samplePath prop l = Except.ok pts ∧
      pts.map PathPoint.time = l := by
  induction l with
  | nil => exact ⟨[], rfl, rfl⟩
  | cons t rest ih =>
    obtain ⟨g, hg⟩ := h t (List.mem_cons_self t rest)
    obtain ⟨pts, hpts, htimes⟩ :=
      ih (fun s hs => h s (List.mem_cons_of_mem _ hs))
    refine ⟨pathPoint t g :: pts, ?_, ?_⟩
    · simp [samplePath, hg, hpts]
    · simp [pathPoint, htimes]

/-- The first failing sample determines the error of the whole sampling
loop. -/
theorem samplePath_error_first (prop : ℚ → Except PropErr Geo)
    (pre : List ℚ) (t : ℚ) (post : List ℚ) (e : PropErr)
    (hpre : ∀ s ∈ pre, ∃ g, prop s = Except.ok g)
    (ht : prop t = Except.error e) :
    samplePath prop (pre ++ t :: post) = Except.error e := by
  induction pre with
  | nil => simp [samplePath, ht]
  | cons s rest ih =>
    obtain ⟨g, hg⟩ := hpre s (List.mem_cons_self s rest)
    have hrest := ih (fun u hu => hpre u (List.mem_cons_of_mem _ hu))
    simp [samplePath, hg, hrest]

/-- The prediction sampler always holds 51 instants. -/
theorem predictionTimes_length (t0 h : ℚ) :
    (predictionTimes t0 h).length = 51 := by
  simp [predictionTimes]

/-- The first sampled instant is the request instant. -/
theorem predictionTimes_head (t0 h : ℚ) :
    (predictionTimes t0 h).head? = some t0 := by
  rw [predictionTimes, List.head?_map,
    show (List.range 51).head? = some 0 from by decide]
  simp

/-- The last sampled instant is the request instant plus the span. -/
theorem predictionTimes_last (t0 h : ℚ) :
    (predictionTimes t0 h).getLast? = some (t0 + h) := by
  rw [predictionTimes, List.getLast?_map,
    show (List.range 51).getLast? = some 50 from by decide]
  have h50 : (50 : ℚ) * (h / 50) = h := by field_simp
  simp [h50]

/-- For a positive span the sampled instants strictly increase. -/
theorem predictionTimes_pairwise (t0 h : ℚ) (hpos : 0 < h) :
    (predictionTimes t0 h).Pairwise (· < ·) := by
  rw [predictionTimes]
  refine List.Pairwise.map _ (fun a b hab => ?_) (List.pairwise_lt_range 51)
  have hstep : (0 : ℚ) < h / 50 := by positivity
  have hcast : (a : ℚ) < (b : ℚ) := by exact_mod_cast hab
  exact add_lt_add_left (mul_lt_mul_of_pos_right hcast hstep) t0

/-- The mock pass list length matches the Python range argument. -/
theorem mkPasses_length (days : Int) (t0 : ℚ) :
    (mkPasses days t0).length = (days * 4).toNat := by
  simp [mkPasses]

/-- Indexing into the mock pass list yields the indexed mock pass. -/
theorem mkPasses_getElem? (days : Int) (t0 : ℚ) (i : Nat)
    (hi : i < (days * 4).toNat) :
    (mkPasses days t0)[i]? = some (mkPass t0 i) := by
  rw [mkPasses, List.getElem?_map, List.getElem?_range hi]
  rfl

/-- Real-time tracking keeps exactly the satellites whose propagation
succeeded, in order, and drops the rest. -/
theorem realTimeTracking_length (hashStr : String → String)
    (prop : Propagator) (now : ℚ) (sats : List Sat) :
    (realTimeTracking hashStr prop now sats).length =
      ((sats.take 15).filter (fun s => (prop s now).isOk)).length := by
  rw [realTimeTracking]
  induction sats.take 15 with
  | nil => rfl
  | cons s rest ih =>
    cases hp : prop s now with
    | ok g =>
      simp [List.filterMap_cons, List.filter_cons, hp, Except.isOk,
        Except.toBool, ih]
    | error e =>
      simp [List.filterMap_cons, List.filter_cons, hp, Except.isOk,
        Except.toBool, ih]

/-- Claim C1, counterexample: the pass operation has no elevation
threshold at all — for the ISS with a New-York-like observer and one
requested day it returns 4 mock passes, not an empty sequence, so a
request whose satellite is never above a 90 degree threshold still gets
a non-empty pass list. -/
theorem c1_counterexample :
    (passesEndpoint [issSat] "ISS (ZARYA)" 40 (-74) 1 0).map
        (fun r => r.passes.length) = Except.ok 4 ∧ (4 : Nat) ≠ 0 := by
  exact ⟨rfl, by decide⟩

/-- Claim C1 as amended: the pass operation ignores any minimum-elevation
threshold (no such request field exists) and, for a found satellite in a
loaded catalog, always returns exactly days*4 mock passes — a non-empty
sequence whenever days is at least 1 — and it never fails because no
passes were found. -/
theorem c1_amended (sats : List Sat) (nm : String) (lat lon : ℚ)
    (days : Int) (t0 : ℚ) (hne : sats ≠ [])
    (hfound : (findByName sats nm).isSome = true) (hdays : 1 ≤ days) :
    ∃ r, passesEndpoint sats nm lat lon days t0 = Except.ok r ∧
      r.passes.length = (days * 4).toNat ∧ r.passes ≠ [] := by
  obtain ⟨sat, hsat⟩ := Option.isSome_iff_exists.mp hfound
  have hempty : sats.isEmpty = false := by
    cases sats with
    | nil => exact absurd rfl hne
    | cons s rest => rfl
  refine ⟨{ passes := mkPasses days t0,
            totalPasses := (mkPasses days t0).length }, ?_, ?_, ?_⟩
  · rw [passesEndpoint, hempty]
    simp only [Bool.false_eq_true, if_false]
    rw [passesBody, hsat]
  · exact mkPasses_length days t0
  · refine List.length_pos.mp ?_
    rw [mkPasses_length]
    omega

/-- Witness for c1_amended at a concrete catalog, satellite and day
count. -/
theorem c1_witness :
    ([issSat] : List Sat) ≠ [] ∧
    (findByName [issSat] "iss (zarya)").isSome = true ∧
    (1 : Int) ≤ 1 ∧
    ∃ r, passesEndpoint [issSat] "iss (zarya)" 0 0 1 0 = Except.ok r ∧
      r.passes.length = ((1 : Int) * 4).toNat ∧ r.passes ≠ [] :=
  ⟨by decide, by decide, by decide,
    c1_amended [issSat] "iss (zarya)" 0 0 1 0 (by decide) (by decide)
      (by decide)⟩

/-- Claim C2, counterexample: the ground-track sampling operation has a
hard-coded point count of 51 — there is no pointCount request field — so
a caller wanting n = 2 points still receives 51; the claim as stated
(exactly n points for every requested n at least 2) fails. -/
theorem c2_counterexample :
    (predictionEndpoint (fun n => n) (fun _ _ => Except.ok geo0) [issSat]
        "ISS (ZARYA)" 24 0).map (fun r => r.path.length) =
      Except.ok 51 ∧ (51 : Nat) ≠ 2 := by
  exact ⟨rfl, by decide⟩

/-- Claim C2 as amended: the point count is fixed at 51 rather than
caller-requested; for every positive span and an everywhere-succeeding
propagation, the sampling succeeds with exactly 51 points at evenly
spaced instants, the first at the start instant, the last at start plus
the span, with instants strictly increasing. -/
theorem c2_amended (prop : ℚ → Except PropErr Geo) (t0 h : ℚ)
    (hpos : 0 < h) (hok : ∀ t, ∃ g, prop t = Except.ok g) :
    ∃ pts, samplePath prop (predictionTimes t0 h) = Except.ok pts ∧
      pts.length = 51 ∧
      pts.map PathPoint.time = predictionTimes t0 h ∧
      (predictionTimes t0 h).head? = some t0 ∧
      (predictionTimes t0 h).getLast? = some (t0 + h) ∧
      (predictionTimes t0 h).Pairwise (· < ·) := by
  obtain ⟨pts, hp, ht⟩ :=
    samplePath_ok prop (predictionTimes t0 h) (fun t _ => hok t)
  refine ⟨pts, hp, ?_, ht, predictionTimes_head t0 h,
    predictionTimes_last t0 h, predictionTimes_pairwise t0 h hpos⟩
  have hlen := congrArg List.length ht
  simpa [predictionTimes_length] using hlen

/-- Witness for c2_amended at a concrete span and propagation. -/
theorem c2_witness :
    (0 : ℚ) < 24 ∧
    (∀ t : ℚ, ∃ g, (fun _ : ℚ => (Except.ok geo0 : Except PropErr Geo)) t =
      Except.ok g) ∧
    ∃ pts,
      samplePath (fun _ : ℚ => (Except.ok geo0 : Except PropErr Geo))
          (predictionTimes 0 24) = Except.ok pts ∧
        pts.length = 51 ∧
        pts.map PathPoint.time = predictionTimes 0 24 ∧
        (predictionTimes 0 24).head? = some 0 ∧
        (predictionTimes 0 24).getLast? = some (0 + 24) ∧
        (predictionTimes 0 24).Pairwise (· < ·) :=
  ⟨by norm_num, fun t => ⟨geo0, rfl⟩,
    c2_amended (fun _ : ℚ => (Except.ok geo0 : Except PropErr Geo)) 0 24
      (by norm_num) (fun t => ⟨geo0, rfl⟩)⟩

/-- Claim C4: if any sampled instant of the ground-track prediction
raises a propagation error, the whole sampling aborts with the error of
the first failing sample and no partial point sequence is returned.  The
pass operation performs no per-sample propagation at all, so the claim
holds vacuously there. -/
theorem c4_abort (prop : ℚ → Except PropErr Geo) (t0 h : ℚ)
    (pre : List ℚ) (t : ℚ) (post : List ℚ) (e : PropErr)
    (hsplit : predictionTimes t0 h = pre ++ t :: post)
    (hpre : ∀ s ∈ pre, ∃ g, prop s = Except.ok g)
    (ht : prop t = Except.error e) :
    samplePath prop (predictionTimes t0 h) = Except.error e ∧
    ∀ pts, samplePath prop (predictionTimes t0 h) ≠ Except.ok pts := by
  have habort : samplePath prop (predictionTimes t0 h) = Except.error e := by
    rw [hsplit]
    exact samplePath_error_first prop pre t post e hpre ht
  refine ⟨habort, fun pts hok => ?_⟩
  rw [habort] at hok
  exact Except.noConfusion hok

/-- Witness for c4_abort: with a zero span every sampled instant equals
the start instant, and a propagation failing there aborts the whole
sampling. -/
theorem c4_witness :
    predictionTimes 0 0 = [] ++ (0 : ℚ) :: List.replicate 50 0 ∧
    (∀ s ∈ ([] : List ℚ), ∃ g,
      (fun _ : ℚ => (Except.error PropErr.orbitDecayed : Except PropErr Geo)) s =
        Except.ok g) ∧
    (samplePath (fun _ : ℚ =>
          (Except.error PropErr.orbitDecayed : Except PropErr Geo))
        (predictionTimes 0 0) = Except.error PropErr.orbitDecayed ∧
      ∀ pts, samplePath (fun _ : ℚ =>
          (Except.error PropErr.orbitDecayed : Except PropErr Geo))
        (predictionTimes 0 0) ≠ Except.ok pts) :=
  ⟨by simp [predictionTimes, List.map_const', List.replicate_succ],
    fun s hs => absurd hs (List.not_mem_nil s),
    c4_abort (fun _ : ℚ =>
        (Except.error PropErr.orbitDecayed : Except PropErr Geo)) 0 0
      [] 0 (List.replicate 50 0) PropErr.orbitDecayed
      (by simp [predictionTimes, List.map_const', List.replicate_succ])
      (fun s hs => absurd hs (List.not_mem_nil s)) rfl⟩

/-- Claim C3, counterexample: a satellite whose propagation raises is
not reported as a typed failure by the listing operation — it is
silently replaced by a fallback entry with altitude 0 and status
Unknown, exactly the substitution the claim rules out. -/
theorem c3_counterexample :
    listSatellites (fun n => n)
        (fun _ _ => Except.error PropErr.orbitDecayed) 0 [issSat] =
      [{ id := "ISS (ZARYA)", name := "ISS (ZARYA)", satnum := 25544,
         type := "Satellite", current_altitude := 0, status := "Unknown",
         coverage := "Unknown" }] := by
  rfl

/-- Claim C3 as amended: a propagation failure is recovered per
satellite, not reported — the listing operation substitutes a fallback
entry with altitude 0, status Unknown and type Satellite for every
failing satellite among the first 20, and real-time tracking silently
drops failing satellites, keeping exactly those whose propagation
succeeded. -/
theorem c3_amended (hashStr : String → String) (prop : Propagator)
    (now : ℚ) (sats : List Sat) (sat : Sat) (hmem : sat ∈ sats.take 20)
    (herr : (prop sat now).isOk = false) :
    (∃ entry ∈ listSatellites hashStr prop now sats,
        entry.name = sat.name ∧ entry.current_altitude = 0 ∧
          entry.status = "Unknown" ∧ entry.type = "Satellite") ∧
    (realTimeTracking hashStr prop now sats).length =
      ((sats.take 15).filter fun s => (prop s now).isOk).length := by
  refine ⟨?_, realTimeTracking_length hashStr prop now sats⟩
  obtain ⟨e, he⟩ : ∃ e, prop sat now = Except.error e := by
    cases hp : prop sat now with
    | ok g =>
      rw [hp] at herr
      exact absurd herr (by simp [Except.isOk, Except.toBool])
    | error e => exact ⟨e, rfl⟩
  simp only [listSatellites]
  refine ⟨_, List.mem_map_of_mem _ hmem, ?_⟩
  simp [he]

/-- Witness for c3_amended at a one-satellite catalog whose propagation
always raises. -/
theorem c3_witness :
    issSat ∈ ([issSat] : List Sat).take 20 ∧
    ((fun (_ : Sat) (_ : ℚ) =>
        (Except.error PropErr.orbitDecayed : Except PropErr Geo))
      issSat 0).isOk = false ∧
    ((∃ entry ∈ listSatellites (fun n => n)
          (fun _ _ =>
            (Except.error PropErr.orbitDecayed : Except PropErr Geo))
          0 [issSat],
        entry.name = issSat.name ∧ entry.current_altitude = 0 ∧
          entry.status = "Unknown" ∧ entry.type = "Satellite") ∧
      (realTimeTracking (fun n => n)
          (fun _ _ =>
            (Except.error PropErr.orbitDecayed : Except PropErr Geo))
          0 [issSat]).length =
        ((([issSat] : List Sat).take 15).filter fun s =>
          ((fun (_ : Sat) (_ : ℚ) =>
              (Except.error PropErr.orbitDecayed : Except PropErr Geo))
            s 0).isOk).length) :=
  ⟨by decide, rfl,
    c3_amended (fun n => n)
      (fun _ _ => (Except.error PropErr.orbitDecayed : Except PropErr Geo))
      0 [issSat] issSat (by decide) rfl⟩

/-- Claim C5, counterexample: no request-range validation exists — a
zero prediction_hours span is accepted and yields a successful response
with 51 coincident sample instants, and a zero days pass request is
accepted and yields a successful empty pass list, where the claim
demands a typed InvalidRequestRange failure (no such error exists in
the handlers). -/
theorem c5_counterexample :
    (predictionEndpoint (fun n => n)
        (fun _ _ => (Except.ok geo0 : Except PropErr Geo)) [issSat]
        "ISS (ZARYA)" 0 0).map (fun r => r.path.length) = Except.ok 51 ∧
    predictionTimes 0 0 = List.replicate 51 0 ∧
    (passesEndpoint [issSat] "ISS (ZARYA)" 40 (-74) 0 0).map
        (fun r => r.passes.length) = Except.ok 0 := by
  refine ⟨rfl, ?_, rfl⟩
  simp [predictionTimes, List.map_const']

/-- Claim C5 as amended: the handlers validate no ranges — for every
non-positive span the prediction still succeeds with 51 points
(coincident or time-reversed instants), and for every non-positive day
count the pass operation still succeeds with an empty list; no typed
range error is produced. -/
theorem c5_amended (hashStr : String → String) (prop : Propagator)
    (sats : List Sat) (satId nm : String) (lat lon h t0 : ℚ) (days : Int)
    (hne : sats ≠ []) (hid : (findByHash hashStr sats satId).isSome = true)
    (hnm : (findByName sats nm).isSome = true)
    (hok : ∀ sat t, ∃ g, prop sat t = Except.ok g)
    (hh : h ≤ 0) (hd : days ≤ 0) :
    (∃ r, predictionEndpoint hashStr prop sats satId h t0 = Except.ok r ∧
        r.path.length = 51) ∧
    ∃ r, passesEndpoint sats nm lat lon days t0 = Except.ok r ∧
      r.passes = [] := by
  have hempty : sats.isEmpty = false := by
    cases sats with
    | nil => exact absurd rfl hne
    | cons s rest => rfl
  obtain ⟨sat, hsat⟩ := Option.isSome_iff_exists.mp hid
  obtain ⟨sat2, hsat2⟩ := Option.isSome_iff_exists.mp hnm
  obtain ⟨pts, hp, ht⟩ :=
    samplePath_ok (fun t => prop sat t) (predictionTimes t0 h)
      (fun t _ => hok sat t)
  constructor
  · refine ⟨{ satelliteId := satId, predictionHours := h, path := pts,
              totalPoints := pts.length,
              africaPct := (pts.countP (fun p => p.africa) : ℚ) /
                (pts.length : ℚ) * 100 }, ?_, ?_⟩
    · rw [predictionEndpoint, hempty]
      simp only [Bool.false_eq_true, if_false]
      simp only [predictionBody, hsat, hp]
    · have hlen := congrArg List.length ht
      simpa [predictionTimes_length] using hlen
  · have hmk : mkPasses days t0 = [] := by
      rw [mkPasses, show (days * 4).toNat = 0 from by omega]
      rfl
    refine ⟨{ passes := mkPasses days t0,
              totalPasses := (mkPasses days t0).length }, ?_, hmk⟩
    rw [passesEndpoint, hempty]
    simp only [Bool.false_eq_true, if_false]
    rw [passesBody, hsat2]

/-- Witness for c5_amended at a concrete catalog, zero span and zero day
count. -/
theorem c5_witness :
    ([issSat] : List Sat) ≠ [] ∧
    (findByHash (fun n => n) [issSat] "ISS (ZARYA)").isSome = true ∧
    (findByName [issSat] "iss (zarya)").isSome = true ∧
    (0 : ℚ) ≤ 0 ∧ (0 : Int) ≤ 0 ∧
    ((∃ r, predictionEndpoint (fun n => n)
          (fun _ _ => (Except.ok geo0 : Except PropErr Geo)) [issSat]
          "ISS (ZARYA)" 0 0 = Except.ok r ∧ r.path.length = 51) ∧
      ∃ r, passesEndpoint [issSat] "iss (zarya)" 40 (-74) 0 0 =
          Except.ok r ∧ r.passes = []) :=
  ⟨by decide, by decide, by decide, le_refl 0, by decide,
    c5_amended (fun n => n)
      (fun _ _ => (Except.ok geo0 : Except PropErr Geo)) [issSat]
      "ISS (ZARYA)" "iss (zarya)" 40 (-74) 0 0 0 (by decide) (by decide)
      (by decide) (fun sat t => ⟨geo0, rfl⟩) (le_refl 0) (by decide)⟩

/-- The wrapped angle always lands within half a turn of zero. -/
theorem wrapDeg_bound (d : ℝ) : |wrapDeg d| ≤ 180 := by
  have habs : |d / 360 - (round (d / 360) : ℤ)| ≤ 1 / 2 :=
    abs_sub_round (d / 360)
  have heq : wrapDeg d = 360 * (d / 360 - (round (d / 360) : ℤ)) := by
    rw [wrapDeg]
    field_simp
  rw [heq, abs_mul, abs_of_nonneg (by norm_num : (0 : ℝ) ≤ 360)]
  nlinarith [habs]

/-- Claim C6: every geodetic position produced by the spec-modelled
toGeodetic conversion has latitude within [-90, 90] degrees and
longitude within [-180, 180] degrees; the handlers pass these fields
through to their responses unchanged. -/
theorem c6_geodetic_ranges (gmstDeg : ℝ) (v : StateVector) :
    (toGeodetic gmstDeg v).latDeg ∈ Set.Icc (-90 : ℝ) 90 ∧
    (toGeodetic gmstDeg v).lonDeg ∈ Set.Icc (-180 : ℝ) 180 := by
  constructor
  · have hc : (0 : ℝ) < 180 / Real.pi := by positivity
    have h1 :=
      Real.arctan_lt_pi_div_two (v.z / Real.sqrt (v.x ^ 2 + v.y ^ 2))
    have h2 :=
      Real.neg_pi_div_two_lt_arctan (v.z / Real.sqrt (v.x ^ 2 + v.y ^ 2))
    have key : Real.pi / 2 * (180 / Real.pi) = 90 := by
      field_simp
      ring
    have hu := mul_lt_mul_of_pos_right h1 hc
    have hl := mul_lt_mul_of_pos_right h2 hc
    rw [key] at hu
    rw [neg_mul, key] at hl
    simp only [toGeodetic, Set.mem_Icc]
    exact ⟨by linarith, by linarith⟩
  · have hb := wrapDeg_bound
      (Complex.arg ⟨v.x, v.y⟩ * (180 / Real.pi) - gmstDeg)
    simp only [toGeodetic, Set.mem_Icc]
    exact abs_le.mp hb

/-- Claim C7: propagating and converting is deterministic and hides no
state — calling the position pipeline twice on the same catalog
snapshot, identifier, instant and propagation function yields identical
responses, and the process state after the calls is the state before
them. -/
theorem c7_deterministic (hashStr : String → String) (prop : Propagator)
    (w : World) (satId : String) (now : ℚ) :
    (positionCall hashStr prop w satId now).1 =
      (positionCall hashStr prop (positionCall hashStr prop w satId now).2
        satId now).1 ∧
    (positionCall hashStr prop (positionCall hashStr prop w satId now).2
      satId now).2 = w :=
  ⟨rfl, rfl⟩

/-- Claim C8, counterexample: consecutive mock passes are emitted 6
hours apart, not 2 — the pass operation does not sample every 2 hours. -/
theorem c8_counterexample :
    (mkPasses 2 0)[0]? = some (mkPass 0 0) ∧
    (mkPasses 2 0)[1]? = some (mkPass 0 1) ∧
    (mkPass 0 1).time - (mkPass 0 0).time = 6 ∧ (6 : ℚ) ≠ 2 := by
  refine ⟨rfl, rfl, ?_, by norm_num⟩
  norm_num [mkPass]

/-- Claim C8 as amended: the pass operation emits one mock pass every 6
hours (four per requested day) across the requested day span; no 2-hour
sampling step exists anywhere in the operation. -/
theorem c8_amended (days : Int) (t0 : ℚ) (i : Nat)
    (hi : i + 1 < (days * 4).toNat) :
    ∃ p q, (mkPasses days t0)[i]? = some p ∧
      (mkPasses days t0)[i + 1]? = some q ∧ q.time - p.time = 6 := by
  refine ⟨mkPass t0 i, mkPass t0 (i + 1),
    mkPasses_getElem? days t0 i (by omega),
    mkPasses_getElem? days t0 (i + 1) hi, ?_⟩
  simp only [mkPass]
  push_cast
  ring

/-- Witness for c8_amended at the first pair of passes of a one-day
request. -/
theorem c8_witness :
    0 + 1 < ((1 : Int) * 4).toNat ∧
    ∃ p q, (mkPasses 1 0)[0]? = some p ∧ (mkPasses 1 0)[1]? = some q ∧
      q.time - p.time = 6 :=
  ⟨by decide, c8_amended 1 0 0 (by decide)⟩

/-- Claim C9: when no satellite matches, the position, prediction and
passes endpoints answer with status 500, never 404 — the 404 raised
inside each try block is caught by the generic exception handler and
re-wrapped as a 500. -/
theorem c9_notfound_500 (hashStr : String → String) (prop : Propagator)
    (sats : List Sat) (satId nm : String) (lat lon h t0 : ℚ) (days : Int)
    (hne : sats ≠ []) (hid : findByHash hashStr sats satId = none)
    (hnm : findByName sats nm = none) :
    (∃ d, positionEndpoint hashStr prop sats satId t0 =
        Except.error (HExc.http 500 d)) ∧
    (∃ d, predictionEndpoint hashStr prop sats satId h t0 =
        Except.error (HExc.http 500 d)) ∧
    ∃ d, passesEndpoint sats nm lat lon days t0 =
        Except.error (HExc.http 500 d) := by
  have hempty : sats.isEmpty = false := by
    cases sats with
    | nil => exact absurd rfl hne
    | cons s rest => rfl
  refine ⟨⟨"Error calculating position: " ++
      excMessage (HExc.http 404 "Satellite not found"), ?_⟩,
    ⟨"Error calculating orbital prediction: " ++
      excMessage (HExc.http 404 "Satellite not found"), ?_⟩,
    ⟨"Error calculating passes: " ++
      excMessage (HExc.http 404 "Satellite not found"), ?_⟩⟩
  · rw [positionEndpoint, hempty]
    simp only [Bool.false_eq_true, if_false]
    rw [positionBody, hid]
  · rw [predictionEndpoint, hempty]
    simp only [Bool.false_eq_true, if_false]
    rw [predictionBody, hid]
  · rw [passesEndpoint, hempty]
    simp only [Bool.false_eq_true, if_false]
    rw [passesBody, hnm]

/-- Witness for c9_notfound_500 at a one-satellite catalog and an
identifier and name matching nothing. -/
theorem c9_witness :
    ([issSat] : List Sat) ≠ [] ∧
    findByHash (fun n => n) [issSat] "unknown" = none ∧
    findByName [issSat] "unknown" = none ∧
    ((∃ d, positionEndpoint (fun n => n)
          (fun _ _ => (Except.ok geo0 : Except PropErr Geo)) [issSat]
          "unknown" 0 = Except.error (HExc.http 500 d)) ∧
      (∃ d, predictionEndpoint (fun n => n)
          (fun _ _ => (Except.ok geo0 : Except PropErr Geo)) [issSat]
          "unknown" 24 0 = Except.error (HExc.http 500 d)) ∧
      ∃ d, passesEndpoint [issSat] "unknown" 40 (-74) 3 0 =
          Except.error (HExc.http 500 d)) :=
  ⟨by decide, by decide, by decide,
    c9_notfound_500 (fun n => n)
      (fun _ _ => (Except.ok geo0 : Except PropErr Geo)) [issSat]
      "unknown" "unknown" 40 (-74) 24 0 3 (by decide) (by decide)
      (by decide)⟩

/-- Claim C10: the pass response is independent of the observer
latitude and longitude, holds exactly days*4 passes, and pass i carries
time t0 + 6i hours, altitude 45 + (i mod 3)*15, azimuth (60 i) mod 360
and max elevation 60 + (i mod 2)*15. -/
theorem c10_observer_independent (sats : List Sat) (nm : String)
    (lat lon lat' lon' : ℚ) (days : Nat) (t0 : ℚ) (i : Nat)
    (hi : i < days * 4) :
    passesEndpoint sats nm lat lon (days : Int) t0 =
      passesEndpoint sats nm lat' lon' (days : Int) t0 ∧
    (mkPasses (days : Int) t0).length = days * 4 ∧
    (mkPasses (days : Int) t0)[i]? = some (mkPass t0 i) ∧
    (mkPass t0 i).time = t0 + 6 * (i : ℚ) ∧
    (mkPass t0 i).altitude = 45 + (i % 3) * 15 ∧
    (mkPass t0 i).azimuth = (60 * i) % 360 ∧
    (mkPass t0 i).maxElevation = 60 + (i % 2) * 15 := by
  refine ⟨rfl, ?_, ?_, rfl, rfl, ?_, rfl⟩
  · rw [mkPasses_length]
    omega
  · exact mkPasses_getElem? _ t0 i (by omega)
  · simp [mkPass, Nat.mul_comm]

/-- Witness for c10_observer_independent at two distinct observers and
the fourth pass of a one-day request. -/
theorem c10_witness :
    3 < 1 * 4 ∧
    (passesEndpoint [issSat] "ISS (ZARYA)" 40 (-74) ((1 : Nat) : Int) 0 =
        passesEndpoint [issSat] "ISS (ZARYA)" 41 (-75) ((1 : Nat) : Int) 0 ∧
      (mkPasses ((1 : Nat) : Int) 0).length = 1 * 4 ∧
      (mkPasses ((1 : Nat) : Int) 0)[3]? = some (mkPass 0 3) ∧
      (mkPass 0 3).time = 0 + 6 * ((3 : Nat) : ℚ) ∧
      (mkPass 0 3).altitude = 45 + (3 % 3) * 15 ∧
      (mkPass 0 3).azimuth = (60 * 3) % 360 ∧
      (mkPass 0 3).maxElevation = 60 + (3 % 2) * 15) :=
  ⟨by decide,
    c10_observer_independent [issSat] "ISS (ZARYA)" 40 (-74) 41 (-75)
      1 0 3 (by decide)⟩

end Orbita
